import Mathlib

/-!
Verification of the Felma backend's priority-ranking engine and the item
operations built on it.

The JavaScript source computes with IEEE-754 doubles.  The engine is
embedded twice: `computePriorityRank` renders the formula over exact
rationals (a decimal literal such as `0.57` denotes the exact rational
`57/100`), and `computePriorityRankFloat` renders it bit-exactly at the
value level of binary64 arithmetic (every operand and operation result
is a dyadic rational with a 53-bit significand, each operation correctly
rounded to nearest with ties to even, as IEEE-754 prescribes; all values
here are positive, normal and far from overflow).  The two do not agree
everywhere: ten inputs of the valid domain make the exact product a
half-integer, and at exactly one of them, `(2, 7, 10, 10)`, the double
product `41.49999999999999289…` rounds to 41 while the exact product
`41.5` rounds away from zero to 42 — this unique divergence is proved
below (`priorityRank_float_counterexample`,
`priorityRank_single_round_off_boundary`).  Claims for which one value
of one input is immaterial are settled against the exact-rational
rendering.

JavaScript `Math.round x` is `⌊x + 1/2⌋` applied to the exact value of
the argument double (half-way cases round toward positive infinity),
which `jsRound` mirrors exactly.

JavaScript strings are embedded as Lean `String`; for the strings
considered here UTF-16 code units (which `slice` counts) coincide with
characters.  A missing (`undefined`/`null`) string argument is embedded
as `""`, which the source treats identically (both are falsy and both
trim to the empty string).  A rating value that arrives missing,
non-numeric, or otherwise coerces to `NaN`/`±Infinity` is embedded as
`none : Option ℚ`, a finite number as `some q`.
-/

/-- JavaScript `Math.round`: floor of `x + 1/2` (half-way cases go up). -/
def jsRound (x : ℚ) : ℤ := ⌊x + 1/2⌋

/-- From `computePriorityRank` (src/unnamed/part_000 lines 33-38, identical
in part_004 lines 26-30, part_007 lines 38-43, and `calculatePriorityRank`
in src/index.js lines 20-24):
`Math.round((0.57*ci + 0.43*te) * (0.6*fr + 0.4*ease))`, rendered over
exact rationals.  The bit-exact binary64 rendering of the same source
function is `computePriorityRankFloat`; the two agree on every integer
input in `[1,10]⁴` except `(2, 7, 10, 10)` (proved below). -/
def computePriorityRank (customer_impact team_energy frequency ease : ℚ) : ℤ :=
  jsRound ((0.57 * customer_impact + 0.43 * team_energy)
            * (0.6 * frequency + 0.4 * ease))

/-- From `tierForPR` (src/unnamed/part_000 lines 40-46, identical in
part_004 lines 32-38 and part_007 lines 44-50): the stored tier label
strings carry an emoji prefix. -/
def tierForPR (pr : ℤ) : String :=
  if pr ≥ 70 then "🔥 Make it happen"
  else if pr ≥ 50 then "🚀 Act on it now"
  else if pr ≥ 36 then "🧭 Move it forward"
  else if pr ≥ 25 then "🙂 When time allows"
  else "⚪ Park for later"

/-- From `shouldLeaderUnblock` (src/unnamed/part_000 lines 48-51,
part_004 lines 40-42, part_007 lines 51-54): `team_energy >= 9 && ease <= 3`. -/
def shouldLeaderUnblock (team_energy ease : ℚ) : Bool :=
  decide (team_energy ≥ 9) && decide (ease ≤ 3)

/-- The four ratings an item carries (JS numbers, embedded as rationals). -/
structure RatingInput where
  customerImpact : ℚ
  teamEnergy : ℚ
  frequency : ℚ
  ease : ℚ

/-- The triple every rating-accepting handler computes and persists. -/
structure RankingResult where
  priorityRank : ℤ
  actionTier : String
  escalationFlag : Bool
deriving DecidableEq

/-- The composition every handler performs after validation
(e.g. src/unnamed/part_000 lines 142-144): `pr = computePriorityRank(...)`,
`tier = tierForPR(pr)`, `unblock = shouldLeaderUnblock(te, ea)`. -/
def computeRank (r : RatingInput) : RankingResult :=
  let pr := computePriorityRank r.customerImpact r.teamEnergy r.frequency r.ease
  { priorityRank := pr
    actionTier := tierForPR pr
    escalationFlag := shouldLeaderUnblock r.teamEnergy r.ease }

/-- Modelled from the spec: the "standard round-half-away-from-zero"
rounding §4.1 prescribes for the final product. -/
def roundHalfAwayFromZero (x : ℚ) : ℤ :=
  if 0 ≤ x then ⌊x + 1/2⌋ else ⌈x - 1/2⌉

/-- The five tier labels as stored by the code, lowest band first. -/
def tierLabels : List String :=
  ["⚪ Park for later", "🙂 When time allows", "🧭 Move it forward",
   "🚀 Act on it now", "🔥 Make it happen"]

/-- Position of a label in the ordered band list (0 = lowest urgency). -/
def tierLevel (s : String) : ℕ :=
  if s = "🔥 Make it happen" then 4
  else if s = "🚀 Act on it now" then 3
  else if s = "🧭 Move it forward" then 2
  else if s = "🙂 When time allows" then 1
  else 0

/-- From `num1to10` (src/unnamed/part_000 lines 53-56):
`Number.isFinite(n) && n >= 1 && n <= 10 ? n : null`.  The argument is the
already-coerced `Number(x)` (`none` = not a finite number). -/
def num1to10 (x : Option ℚ) : Option ℚ :=
  match x with
  | none => none
  | some n => if 1 ≤ n ∧ n ≤ 10 then some n else none

/-- From `safeInt` (src/index.js line 265, the pg variant):
`Number.isFinite(+v) ? Math.max(0, Math.min(10, +v)) : null` — note the
clamp into `[0,10]` instead of a rejection. -/
def safeInt (v : Option ℚ) : Option ℚ :=
  match v with
  | none => none
  | some n => some (max 0 (min 10 n))

/-- From `Number(customer_impact) || 0` in the `/api/items/:id/ratings`
handler (src/index.js lines 133-136): a missing or `NaN` rating is
silently defaulted to `0` (so is an explicit `0`). -/
def numberOr0 (v : Option ℚ) : ℚ :=
  match v with
  | none => 0
  | some n => if n = 0 then 0 else n

/-- One step of `replace(/\s+/g, " ")`: `prevWS` records whether the
previous character belonged to a whitespace run already replaced. -/
def collapseAux : Bool → List Char → List Char
  | _, [] => []
  | prevWS, c :: rest =>
    if c.isWhitespace then
      if prevWS then collapseAux true rest
      else ' ' :: collapseAux true rest
    else c :: collapseAux false rest

/-- JS `s.replace(/\s+/g, " ")`: each maximal whitespace run becomes one
space (`Char.isWhitespace` models the `\s` class). -/
def jsCollapseWS (s : String) : String := ⟨collapseAux false s.data⟩

/-- JS `s.trim()`: drop leading and trailing whitespace. -/
def jsTrim (s : String) : String :=
  ⟨((s.data.dropWhile Char.isWhitespace).reverse.dropWhile Char.isWhitespace).reverse⟩

/-- JS `s.slice(0, 80)`. -/
def jsSlice80 (s : String) : String := ⟨s.data.take 80⟩

/-- From `makeTitle` (src/unnamed/part_000 lines 25-31):
`raw = (title && title.trim().length > 0) ? title.trim() : (transcript || "").trim();`
`if (!raw) return "(untitled)"; return raw.replace(/\s+/g, " ").slice(0, 80)`.
(`title && title.trim().length > 0` is equivalent to `jsTrim title ≠ ""`:
a falsy `title` is embedded as `""`, whose trim is `""`.) -/
def makeTitle (title transcript : String) : String :=
  let raw := if jsTrim title ≠ "" then jsTrim title else jsTrim transcript
  if raw = "" then "(untitled)"
  else jsSlice80 (jsCollapseWS raw)

/-- From `tidy` (src/index.js line 257, the pg variant):
`(s || "").toString().trim().replace(/\s+/g, " ")`. -/
def tidy (s : String) : String := jsCollapseWS (jsTrim s)

/-- From `deriveTitle` (src/index.js lines 258-264, the pg variant):
return `tidy(title)` when nonempty (uncapped), else the first 80
characters of `tidy(transcript)` when nonempty, else `"(untitled)"`. -/
def deriveTitle (title transcript : String) : String :=
  let t := tidy title
  if t ≠ "" then t
  else
    let tr := tidy transcript
    if tr ≠ "" then jsSlice80 tr
    else "(untitled)"

/-- From the `fieldMap` of `POST /api/items/:id/stage`
(src/index.js lines 183-192): the per-stage note column, with no entry
for stage 2. -/
def fieldMap (stage : ℤ) : Option String :=
  if stage = 1 then some "stage_1_capture"
  else if stage = 3 then some "stage_3_involve"
  else if stage = 4 then some "stage_4_choose"
  else if stage = 5 then some "stage_5_prepare"
  else if stage = 6 then some "stage_6_act"
  else if stage = 7 then some "stage_7_learn"
  else if stage = 8 then some "stage_8_recognise"
  else if stage = 9 then some "stage_9_share_story"
  else none

/-- From `POST /api/items/:id/stage` (src/index.js lines 170-225): given
the item's current stage `prevStage` and the request's `stage`, the stage
stored by an accepted request (`none` = 400 rejection).  The handler
validates `1 ≤ stage ≤ 9` (a falsy `0` also rejects), requires a
`fieldMap` entry, then stores `stage < 9 ? stage + 1 : 9` — it never
reads `prevStage`. -/
def stageEndpoint (prevStage req : ℤ) : Option ℤ :=
  if req < 1 ∨ 9 < req then none
  else
    match fieldMap req with
    | none => none
    | some _ => some (if req < 9 then req + 1 else 9)

/-- From `POST /items/:id/stage` (src/unnamed/part_004 lines 192-238):
`parseInt(stage)` must satisfy `1 ≤ stage ≤ 9` and is stored directly as
the new stage; the item's current stage `prevStage` is never read. -/
def stageEndpoint004 (prevStage req : ℤ) : Option ℤ :=
  if req < 1 ∨ 9 < req then none
  else some req

/-- From the factor validation of `POST /items/new`
(src/unnamed/part_000 lines 130-140): the four raw ratings go through
`num1to10`; if any comes back `null` the handler answers 400 with the
fixed message `"All four factors must be 1..10."` (naming no field);
otherwise it proceeds (`none` = no validation error). -/
def validateNewItem000 (ci te fr ea : Option ℚ) : Option String :=
  if num1to10 ci = none ∨ num1to10 te = none ∨ num1to10 fr = none ∨
      num1to10 ea = none then
    some "All four factors must be 1..10."
  else none

/-- One check of the validation loop of `POST /items/:id/factors`
(src/unnamed/part_007 lines 156-165): a field `k` whose `numOrNull` value
is not a finite number in `[1,10]` produces
`Invalid ${k}: must be number 1..10`. -/
def checkFactor007 (k : String) (v : Option ℚ) : Option String :=
  match v with
  | none => some ("Invalid " ++ k ++ ": must be number 1..10")
  | some n =>
    if n < 1 ∨ 10 < n then some ("Invalid " ++ k ++ ": must be number 1..10")
    else none

/-- The whole validation loop of `POST /items/:id/factors`
(src/unnamed/part_007 lines 156-165): fields are checked in object order
(`customer_impact`, `team_energy`, `frequency`, `ease`) and the first
failure is reported. -/
def validateFactors007 (ci te fr ea : Option ℚ) : Option String :=
  (checkFactor007 "customer_impact" ci).orElse fun _ =>
    (checkFactor007 "team_energy" te).orElse fun _ =>
      (checkFactor007 "frequency" fr).orElse fun _ =>
        checkFactor007 "ease" ea

/-- The rating-relevant columns of the row inserted by `POST /items/new`
(src/unnamed/part_007 lines 118-133). -/
structure InsertedItem where
  customer_impact : Option ℚ
  team_energy : Option ℚ
  frequency : Option ℚ
  ease : Option ℚ
  priority_rank : Option ℤ
  action_tier : Option String
  leader_to_unblock : Option Bool

/-- The `allHave` guard of `POST /items/new` (src/unnamed/part_007
lines 107-110) applied to one rating:
`Number.isFinite(n) && n >= 1 && n <= 10`. -/
def in1to10 (o : Option ℚ) : Bool :=
  match o with
  | none => false
  | some n => decide (1 ≤ n) && decide (n ≤ 10)

/-- From `POST /items/new` (src/unnamed/part_007 lines 89-144): the four
ratings pass through `numOrNull` (already folded into the `Option ℚ`
embedding); when the `allHave` guard holds, rank, tier and flag are
computed, otherwise they stay `null`; the row is inserted either way and
the handler answers 201 — there is no rejection path for bad ratings. -/
def itemsNew007 (ci te fr ea : Option ℚ) : InsertedItem :=
  match ci, te, fr, ea with
  | some c, some t, some f, some e =>
    if 1 ≤ c ∧ c ≤ 10 ∧ 1 ≤ t ∧ t ≤ 10 ∧ 1 ≤ f ∧ f ≤ 10 ∧ 1 ≤ e ∧ e ≤ 10 then
      let pr := computePriorityRank c t f e
      ⟨ci, te, fr, ea, some pr, some (tierForPR pr),
        some (shouldLeaderUnblock t e)⟩
    else ⟨ci, te, fr, ea, none, none, none⟩
  | _, _, _, _ => ⟨ci, te, fr, ea, none, none, none⟩

/-- A nonnegative dyadic rational `m / 2^s`.  Every operand and result of
the source's arithmetic is one (all values in the computation are
positive binary64 numbers, whose exact values are dyadic). -/
structure Dyadic where
  m : ℕ
  s : ℕ
deriving DecidableEq

/-- Bit length of a number below `2^8`. -/
def bitLenSmall (n : ℕ) : ℕ :=
  if n = 0 then 0 else if n < 2 then 1 else if n < 4 then 2 else if n < 8 then 3
  else if n < 16 then 4 else if n < 32 then 5 else if n < 64 then 6
  else if n < 128 then 7 else 8

/-- Bit length (position of the highest set bit), one byte per step; the
fuel only bounds the recursion and is ample for every value arising
here. -/
def bitLenNat : ℕ → ℕ → ℕ
  | 0, _ => 0
  | fuel+1, n => if n < 256 then bitLenSmall n else bitLenNat fuel (n / 256) + 8

/-- `a / b` rounded to the nearest integer, ties to even (`b > 0`) — the
rounding IEEE-754 prescribes. -/
def roundTiesEvenDiv (a b : ℕ) : ℕ :=
  let q := a / b
  let r := a % b
  if 2 * r < b then q
  else if b < 2 * r then q + 1
  else if q % 2 = 0 then q else q + 1

/-- Round a dyadic to 53 significant bits, nearest, ties to even: the
value-level effect of returning a binary64 result.  (A significand with
trailing zero bits is shifted exactly, so the value is unchanged.) -/
def round53 (d : Dyadic) : Dyadic :=
  let bl := bitLenNat 20 d.m
  if bl ≤ 53 then d
  else ⟨roundTiesEvenDiv d.m (2 ^ (bl - 53)), d.s - (bl - 53)⟩

/-- Binary64 multiplication at the value level: the exact product,
correctly rounded. -/
def dmul (x y : Dyadic) : Dyadic := round53 ⟨x.m * y.m, x.s + y.s⟩

/-- Binary64 addition at the value level: the exact sum, correctly
rounded. -/
def dadd (x y : Dyadic) : Dyadic :=
  if x.s ≤ y.s then round53 ⟨x.m * 2 ^ (y.s - x.s) + y.m, y.s⟩
  else round53 ⟨x.m + y.m * 2 ^ (x.s - y.s), x.s⟩

/-- A small natural number as a binary64 value (exact below `2^53`). -/
def ofNatD (n : ℕ) : Dyadic := ⟨n, 0⟩

/-- Smallest scale `s` with `a·2^s/b ≥ 2^52`, so that rounding `a·2^s/b`
gives a 53-bit significand; fuel-bounded search. -/
def decScaleAux : ℕ → ℕ → ℕ → ℕ
  | 0, _, _ => 0
  | fuel+1, a, b => if 2 ^ 52 * b ≤ a then 0 else decScaleAux fuel (2 * a) b + 1

/-- The binary64 value of the decimal literal `a/b` (for `a/b` in
`(0, 2^53)`): nearest double, ties to even, as the JS parser produces
for a source literal such as `0.57`. -/
def ofDecimal (a b : ℕ) : Dyadic :=
  let s := decScaleAux 120 a b
  round53 ⟨roundTiesEvenDiv (a * 2 ^ s) b, s⟩

/-- The source's `computePriorityRank` with the JS number semantics made
explicit: each literal is its binary64 value and each `*`/`+` is a
correctly rounded binary64 operation, exactly as the program executes
`Math.round((0.57*ci + 0.43*te) * (0.6*fr + 0.4*ease))`; the final
`Math.round` is `⌊p + 1/2⌋` of the exact value `p` of the product
double, here `(2m + 2^s) / 2^(s+1)` in natural floor division. -/
def computePriorityRankFloat (ci te fr ea : ℕ) : ℕ :=
  let a := dadd (dmul (ofDecimal 57 100) (ofNatD ci)) (dmul (ofDecimal 43 100) (ofNatD te))
  let b := dadd (dmul (ofDecimal 6 10) (ofNatD fr)) (dmul (ofDecimal 4 10) (ofNatD ea))
  let p := dmul a b
  (2 * p.m + 2 ^ p.s) / 2 ^ (p.s + 1)

/-- `computePriorityRankFloat` with the four decimal-conversion constants
replaced by their precomputed values — used only to keep the exhaustive
check below fast; `computePriorityRankFloat_eq_fast` proves the two
pointwise equal. -/
def computePriorityRankFloatFast (ci te fr ea : ℕ) : ℕ :=
  let a := dadd (dmul ⟨5134103575202365, 53⟩ (ofNatD ci))
            (dmul ⟨7746191359077253, 54⟩ (ofNatD te))
  let b := dadd (dmul ⟨5404319552844595, 53⟩ (ofNatD fr))
            (dmul ⟨7205759403792794, 54⟩ (ofNatD ea))
  let p := dmul a b
  (2 * p.m + 2 ^ p.s) / 2 ^ (p.s + 1)

/-- Helper: a rating that is an integer between 1 and 10, the spec's
domain for each `RatingInput` field. -/
def IsValidRating (q : ℚ) : Prop := (∃ n : ℤ, q = (n : ℚ)) ∧ 1 ≤ q ∧ q ≤ 10

/-- Helper: all four ratings valid. -/
def ValidRatingInput (r : RatingInput) : Prop :=
  IsValidRating r.customerImpact ∧ IsValidRating r.teamEnergy ∧
    IsValidRating r.frequency ∧ IsValidRating r.ease

/-- Helper: the two renderings of the binary64 computation coincide
(the constant replacement is sound). -/
lemma computePriorityRankFloat_eq_fast (ci te fr ea : ℕ) :
    computePriorityRankFloat ci te fr ea
      = computePriorityRankFloatFast ci te fr ea := by
  unfold computePriorityRankFloat computePriorityRankFloatFast
  rw [show ofDecimal 57 100 = ⟨5134103575202365, 53⟩ from by decide,
      show ofDecimal 43 100 = ⟨7746191359077253, 54⟩ from by decide,
      show ofDecimal 6 10 = ⟨5404319552844595, 53⟩ from by decide,
      show ofDecimal 4 10 = ⟨7205759403792794, 54⟩ from by decide]

/-- Helper: for natural ratings, the spec's single rounding of the exact
product is the integer `((57c+43t)(6f+4e)+500)/1000` in floor
division. -/
lemma roundHalfAwayFromZero_exact_product (c t f e : ℕ) :
    roundHalfAwayFromZero
        ((0.57 * (c : ℚ) + 0.43 * (t : ℚ)) * (0.6 * (f : ℚ) + 0.4 * (e : ℚ)))
      = (((57 * c + 43 * t) * (6 * f + 4 * e) + 500) / 1000 : ℕ) := by
  have hnn : (0 : ℚ)
      ≤ (0.57 * (c : ℚ) + 0.43 * (t : ℚ)) * (0.6 * (f : ℚ) + 0.4 * (e : ℚ)) := by
    positivity
  have hx : (0.57 * (c : ℚ) + 0.43 * (t : ℚ)) * (0.6 * (f : ℚ) + 0.4 * (e : ℚ)) + 1/2
      = (((57 * c + 43 * t) * (6 * f + 4 * e) + 500 : ℕ) : ℚ) / 1000 := by
    push_cast
    ring
  rw [roundHalfAwayFromZero, if_pos hnn, hx]
  exact_mod_cast Rat.floor_natCast_div_natCast
    ((57 * c + 43 * t) * (6 * f + 4 * e) + 500) 1000

set_option maxRecDepth 100000 in
set_option maxHeartbeats 4000000 in
/-- Helper: slice `customerImpact = 1`, `teamEnergy ∈ [1,5]` of the
exhaustive binary64-versus-exact check. -/
lemma floatChunk_1_lo : ∀ t ∈ Finset.Icc 1 5, ∀ f ∈ Finset.Icc 1 10,
    ∀ e ∈ Finset.Icc 1 10, ((1 : ℕ), t, f, e) ≠ (2, 7, 10, 10) →
    computePriorityRankFloatFast 1 t f e
      = ((57 * 1 + 43 * t) * (6 * f + 4 * e) + 500) / 1000 := by
  decide

set_option maxRecDepth 100000 in
set_option maxHeartbeats 4000000 in
/-- Helper: slice `customerImpact = 1`, `teamEnergy ∈ [6,10]` of the
exhaustive binary64-versus-exact check. -/
lemma floatChunk_1_hi : ∀ t ∈ Finset.Icc 6 10, ∀ f ∈ Finset.Icc 1 10,
    ∀ e ∈ Finset.Icc 1 10, ((1 : ℕ), t, f, e) ≠ (2, 7, 10, 10) →
    computePriorityRankFloatFast 1 t f e
      = ((57 * 1 + 43 * t) * (6 * f + 4 * e) + 500) / 1000 := by
  decide

set_option maxRecDepth 100000 in
set_option maxHeartbeats 4000000 in
/-- Helper: slice `customerImpact = 2`, `teamEnergy ∈ [1,5]` of the
exhaustive binary64-versus-exact check. -/
lemma floatChunk_2_lo : ∀ t ∈ Finset.Icc 1 5, ∀ f ∈ Finset.Icc 1 10,
    ∀ e ∈ Finset.Icc 1 10, ((2 : ℕ), t, f, e) ≠ (2, 7, 10, 10) →
    computePriorityRankFloatFast 2 t f e
      = ((57 * 2 + 43 * t) * (6 * f + 4 * e) + 500) / 1000 := by
  decide

set_option maxRecDepth 100000 in
set_option maxHeartbeats 4000000 in
/-- Helper: slice `customerImpact = 2`, `teamEnergy ∈ [6,10]` of the
exhaustive binary64-versus-exact check. -/
lemma floatChunk_2_hi : ∀ t ∈ Finset.Icc 6 10, ∀ f ∈ Finset.Icc 1 10,
    ∀ e ∈ Finset.Icc 1 10, ((2 : ℕ), t, f, e) ≠ (2, 7, 10, 10) →
    computePriorityRankFloatFast 2 t f e
      = ((57 * 2 + 43 * t) * (6 * f + 4 * e) + 500) / 1000 := by
  decide

set_option maxRecDepth 100000 in
set_option maxHeartbeats 4000000 in
/-- Helper: slice `customerImpact = 3`, `teamEnergy ∈ [1,5]` of the
exhaustive binary64-versus-exact check. -/
lemma floatChunk_3_lo : ∀ t ∈ Finset.Icc 1 5, ∀ f ∈ Finset.Icc 1 10,
    ∀ e ∈ Finset.Icc 1 10, ((3 : ℕ), t, f, e) ≠ (2, 7, 10, 10) →
    computePriorityRankFloatFast 3 t f e
      = ((57 * 3 + 43 * t) * (6 * f + 4 * e) + 500) / 1000 := by
  decide

set_option maxRecDepth 100000 in
set_option maxHeartbeats 4000000 in
/-- Helper: slice `customerImpact = 3`, `teamEnergy ∈ [6,10]` of the
exhaustive binary64-versus-exact check. -/
lemma floatChunk_3_hi : ∀ t ∈ Finset.Icc 6 10, ∀ f ∈ Finset.Icc 1 10,
    ∀ e ∈ Finset.Icc 1 10, ((3 : ℕ), t, f, e) ≠ (2, 7, 10, 10) →
    computePriorityRankFloatFast 3 t f e
      = ((57 * 3 + 43 * t) * (6 * f + 4 * e) + 500) / 1000 := by
  decide

set_option maxRecDepth 100000 in
set_option maxHeartbeats 4000000 in
/-- Helper: slice `customerImpact = 4`, `teamEnergy ∈ [1,5]` of the
exhaustive binary64-versus-exact check. -/
lemma floatChunk_4_lo : ∀ t ∈ Finset.Icc 1 5, ∀ f ∈ Finset.Icc 1 10,
    ∀ e ∈ Finset.Icc 1 10, ((4 : ℕ), t, f, e) ≠ (2, 7, 10, 10) →
    computePriorityRankFloatFast 4 t f e
      = ((57 * 4 + 43 * t) * (6 * f + 4 * e) + 500) / 1000 := by
  decide

set_option maxRecDepth 100000 in
set_option maxHeartbeats 4000000 in
/-- Helper: slice `customerImpact = 4`, `teamEnergy ∈ [6,10]` of the
exhaustive binary64-versus-exact check. -/
lemma floatChunk_4_hi : ∀ t ∈ Finset.Icc 6 10, ∀ f ∈ Finset.Icc 1 10,
    ∀ e ∈ Finset.Icc 1 10, ((4 : ℕ), t, f, e) ≠ (2, 7, 10, 10) →
    computePriorityRankFloatFast 4 t f e
      = ((57 * 4 + 43 * t) * (6 * f + 4 * e) + 500) / 1000 := by
  decide

set_option maxRecDepth 100000 in
set_option maxHeartbeats 4000000 in
/-- Helper: slice `customerImpact = 5`, `teamEnergy ∈ [1,5]` of the
exhaustive binary64-versus-exact check. -/
lemma floatChunk_5_lo : ∀ t ∈ Finset.Icc 1 5, ∀ f ∈ Finset.Icc 1 10,
    ∀ e ∈ Finset.Icc 1 10, ((5 : ℕ), t, f, e) ≠ (2, 7, 10, 10) →
    computePriorityRankFloatFast 5 t f e
      = ((57 * 5 + 43 * t) * (6 * f + 4 * e) + 500) / 1000 := by
  decide

set_option maxRecDepth 100000 in
set_option maxHeartbeats 4000000 in
/-- Helper: slice `customerImpact = 5`, `teamEnergy ∈ [6,10]` of the
exhaustive binary64-versus-exact check. -/
lemma floatChunk_5_hi : ∀ t ∈ Finset.Icc 6 10, ∀ f ∈ Finset.Icc 1 10,
    ∀ e ∈ Finset.Icc 1 10, ((5 : ℕ), t, f, e) ≠ (2, 7, 10, 10) →
    computePriorityRankFloatFast 5 t f e
      = ((57 * 5 + 43 * t) * (6 * f + 4 * e) + 500) / 1000 := by
  decide

set_option maxRecDepth 100000 in
set_option maxHeartbeats 4000000 in
/-- Helper: slice `customerImpact = 6`, `teamEnergy ∈ [1,5]` of the
exhaustive binary64-versus-exact check. -/
lemma floatChunk_6_lo : ∀ t ∈ Finset.Icc 1 5, ∀ f ∈ Finset.Icc 1 10,
    ∀ e ∈ Finset.Icc 1 10, ((6 : ℕ), t, f, e) ≠ (2, 7, 10, 10) →
    computePriorityRankFloatFast 6 t f e
      = ((57 * 6 + 43 * t) * (6 * f + 4 * e) + 500) / 1000 := by
  decide

set_option maxRecDepth 100000 in
set_option maxHeartbeats 4000000 in
/-- Helper: slice `customerImpact = 6`, `teamEnergy ∈ [6,10]` of the
exhaustive binary64-versus-exact check. -/
lemma floatChunk_6_hi : ∀ t ∈ Finset.Icc 6 10, ∀ f ∈ Finset.Icc 1 10,
    ∀ e ∈ Finset.Icc 1 10, ((6 : ℕ), t, f, e) ≠ (2, 7, 10, 10) →
    computePriorityRankFloatFast 6 t f e
      = ((57 * 6 + 43 * t) * (6 * f + 4 * e) + 500) / 1000 := by
  decide

set_option maxRecDepth 100000 in
set_option maxHeartbeats 4000000 in
/-- Helper: slice `customerImpact = 7`, `teamEnergy ∈ [1,5]` of the
exhaustive binary64-versus-exact check. -/
lemma floatChunk_7_lo : ∀ t ∈ Finset.Icc 1 5, ∀ f ∈ Finset.Icc 1 10,
    ∀ e ∈ Finset.Icc 1 10, ((7 : ℕ), t, f, e) ≠ (2, 7, 10, 10) →
    computePriorityRankFloatFast 7 t f e
      = ((57 * 7 + 43 * t) * (6 * f + 4 * e) + 500) / 1000 := by
  decide

set_option maxRecDepth 100000 in
set_option maxHeartbeats 4000000 in
/-- Helper: slice `customerImpact = 7`, `teamEnergy ∈ [6,10]` of the
exhaustive binary64-versus-exact check. -/
lemma floatChunk_7_hi : ∀ t ∈ Finset.Icc 6 10, ∀ f ∈ Finset.Icc 1 10,
    ∀ e ∈ Finset.Icc 1 10, ((7 : ℕ), t, f, e) ≠ (2, 7, 10, 10) →
    computePriorityRankFloatFast 7 t f e
      = ((57 * 7 + 43 * t) * (6 * f + 4 * e) + 500) / 1000 := by
  decide

set_option maxRecDepth 100000 in
set_option maxHeartbeats 4000000 in
/-- Helper: slice `customerImpact = 8`, `teamEnergy ∈ [1,5]` of the
exhaustive binary64-versus-exact check. -/
lemma floatChunk_8_lo : ∀ t ∈ Finset.Icc 1 5, ∀ f ∈ Finset.Icc 1 10,
    ∀ e ∈ Finset.Icc 1 10, ((8 : ℕ), t, f, e) ≠ (2, 7, 10, 10) →
    computePriorityRankFloatFast 8 t f e
      = ((57 * 8 + 43 * t) * (6 * f + 4 * e) + 500) / 1000 := by
  decide

set_option maxRecDepth 100000 in
set_option maxHeartbeats 4000000 in
/-- Helper: slice `customerImpact = 8`, `teamEnergy ∈ [6,10]` of the
exhaustive binary64-versus-exact check. -/
lemma floatChunk_8_hi : ∀ t ∈ Finset.Icc 6 10, ∀ f ∈ Finset.Icc 1 10,
    ∀ e ∈ Finset.Icc 1 10, ((8 : ℕ), t, f, e) ≠ (2, 7, 10, 10) →
    computePriorityRankFloatFast 8 t f e
      = ((57 * 8 + 43 * t) * (6 * f + 4 * e) + 500) / 1000 := by
  decide

set_option maxRecDepth 100000 in
set_option maxHeartbeats 4000000 in
/-- Helper: slice `customerImpact = 9`, `teamEnergy ∈ [1,5]` of the
exhaustive binary64-versus-exact check. -/
lemma floatChunk_9_lo : ∀ t ∈ Finset.Icc 1 5, ∀ f ∈ Finset.Icc 1 10,
    ∀ e ∈ Finset.Icc 1 10, ((9 : ℕ), t, f, e) ≠ (2, 7, 10, 10) →
    computePriorityRankFloatFast 9 t f e
      = ((57 * 9 + 43 * t) * (6 * f + 4 * e) + 500) / 1000 := by
  decide

set_option maxRecDepth 100000 in
set_option maxHeartbeats 4000000 in
/-- Helper: slice `customerImpact = 9`, `teamEnergy ∈ [6,10]` of the
exhaustive binary64-versus-exact check. -/
lemma floatChunk_9_hi : ∀ t ∈ Finset.Icc 6 10, ∀ f ∈ Finset.Icc 1 10,
    ∀ e ∈ Finset.Icc 1 10, ((9 : ℕ), t, f, e) ≠ (2, 7, 10, 10) →
    computePriorityRankFloatFast 9 t f e
      = ((57 * 9 + 43 * t) * (6 * f + 4 * e) + 500) / 1000 := by
  decide

set_option maxRecDepth 100000 in
set_option maxHeartbeats 4000000 in
/-- Helper: slice `customerImpact = 10`, `teamEnergy ∈ [1,5]` of the
exhaustive binary64-versus-exact check. -/
lemma floatChunk_10_lo : ∀ t ∈ Finset.Icc 1 5, ∀ f ∈ Finset.Icc 1 10,
    ∀ e ∈ Finset.Icc 1 10, ((10 : ℕ), t, f, e) ≠ (2, 7, 10, 10) →
    computePriorityRankFloatFast 10 t f e
      = ((57 * 10 + 43 * t) * (6 * f + 4 * e) + 500) / 1000 := by
  decide

set_option maxRecDepth 100000 in
set_option maxHeartbeats 4000000 in
/-- Helper: slice `customerImpact = 10`, `teamEnergy ∈ [6,10]` of the
exhaustive binary64-versus-exact check. -/
lemma floatChunk_10_hi : ∀ t ∈ Finset.Icc 6 10, ∀ f ∈ Finset.Icc 1 10,
    ∀ e ∈ Finset.Icc 1 10, ((10 : ℕ), t, f, e) ≠ (2, 7, 10, 10) →
    computePriorityRankFloatFast 10 t f e
      = ((57 * 10 + 43 * t) * (6 * f + 4 * e) + 500) / 1000 := by
  decide

/-- Helper: exhaustive check (assembled from the twenty slices above)
that the binary64 computation agrees with the exact single rounding at
every integer rating quadruple in `[1,10]⁴` except `(2, 7, 10, 10)`. -/
lemma floatFast_agrees_off_boundary :
    ∀ c ∈ Finset.Icc 1 10, ∀ t ∈ Finset.Icc 1 10, ∀ f ∈ Finset.Icc 1 10,
      ∀ e ∈ Finset.Icc 1 10, (c, t, f, e) ≠ (2, 7, 10, 10) →
      computePriorityRankFloatFast c t f e
        = ((57 * c + 43 * t) * (6 * f + 4 * e) + 500) / 1000 := by
  intro c hc t ht f hf e he hne
  simp only [Finset.mem_Icc] at hc ht
  obtain ⟨hc1, hc2⟩ := hc
  obtain ⟨ht1, ht3⟩ := ht
  rcases Nat.lt_or_ge t 6 with h6 | h6
  · have ht2 : t ∈ Finset.Icc 1 5 := by
      simp only [Finset.mem_Icc]
      omega
    interval_cases c
    · exact floatChunk_1_lo t ht2 f hf e he hne
    · exact floatChunk_2_lo t ht2 f hf e he hne
    · exact floatChunk_3_lo t ht2 f hf e he hne
    · exact floatChunk_4_lo t ht2 f hf e he hne
    · exact floatChunk_5_lo t ht2 f hf e he hne
    · exact floatChunk_6_lo t ht2 f hf e he hne
    · exact floatChunk_7_lo t ht2 f hf e he hne
    · exact floatChunk_8_lo t ht2 f hf e he hne
    · exact floatChunk_9_lo t ht2 f hf e he hne
    · exact floatChunk_10_lo t ht2 f hf e he hne
  · have ht2 : t ∈ Finset.Icc 6 10 := by
      simp only [Finset.mem_Icc]
      omega
    interval_cases c
    · exact floatChunk_1_hi t ht2 f hf e he hne
    · exact floatChunk_2_hi t ht2 f hf e he hne
    · exact floatChunk_3_hi t ht2 f hf e he hne
    · exact floatChunk_4_hi t ht2 f hf e he hne
    · exact floatChunk_5_hi t ht2 f hf e he hne
    · exact floatChunk_6_hi t ht2 f hf e he hne
    · exact floatChunk_7_hi t ht2 f hf e he hne
    · exact floatChunk_8_hi t ht2 f hf e he hne
    · exact floatChunk_9_hi t ht2 f hf e he hne
    · exact floatChunk_10_hi t ht2 f hf e he hne

set_option maxRecDepth 10000 in
/-- C1 counterexample: at `(2, 7, 10, 10)` the program's binary64
arithmetic computes the product double `41.49999999999999289…` and
`Math.round` returns 41, while a single rounding of the exact product
`41.5` gives 42 (as does the exact-rational rendering
`computePriorityRank`) — so the rank is not the exact single rounding of
`(0.57*ci + 0.43*te) * (0.6*fr + 0.4*ease)` at this input. -/
theorem priorityRank_float_counterexample :
    computePriorityRankFloat 2 7 10 10 = 41 ∧
      computePriorityRank 2 7 10 10 = 42 ∧
      roundHalfAwayFromZero ((0.57 * (2 : ℚ) + 0.43 * 7) * (0.6 * 10 + 0.4 * 10)) = 42 ∧
      ((computePriorityRankFloat 2 7 10 10 : ℤ)
        ≠ roundHalfAwayFromZero
            ((0.57 * (2 : ℚ) + 0.43 * 7) * (0.6 * 10 + 0.4 * 10))) := by
  have h1 : computePriorityRankFloat 2 7 10 10 = 41 := by decide
  have h2 : roundHalfAwayFromZero
      ((0.57 * (2 : ℚ) + 0.43 * 7) * (0.6 * 10 + 0.4 * 10)) = 42 := by
    norm_num [roundHalfAwayFromZero]
  refine ⟨h1, ?_, h2, ?_⟩
  · norm_num [computePriorityRank, jsRound]
  · rw [h1, h2]
    decide

set_option maxRecDepth 10000 in
/-- C1 amended: for all four ratings integers in `[1,10]` other than
`(2, 7, 10, 10)`, the program's binary64 evaluation of the formula
returns the round-half-away-from-zero of the exact product
`(0.57*ci + 0.43*te) * (0.6*fr + 0.4*ease)` — a single rounding of the
final product, with the intermediate weighted terms left unrounded;
at `(2, 7, 10, 10)` the binary64 product `41.49999999999999289…` rounds
to 41 where the exact single rounding of `41.5` gives 42. -/
theorem priorityRank_single_round_off_boundary :
    (∀ c ∈ Finset.Icc 1 10, ∀ t ∈ Finset.Icc 1 10, ∀ f ∈ Finset.Icc 1 10,
        ∀ e ∈ Finset.Icc 1 10, (c, t, f, e) ≠ (2, 7, 10, 10) →
        (computePriorityRankFloat c t f e : ℤ)
          = roundHalfAwayFromZero
              ((0.57 * (c : ℚ) + 0.43 * (t : ℚ))
                * (0.6 * (f : ℚ) + 0.4 * (e : ℚ)))) ∧
      computePriorityRankFloat 2 7 10 10 = 41 ∧
      roundHalfAwayFromZero
          ((0.57 * (2 : ℚ) + 0.43 * 7) * (0.6 * 10 + 0.4 * 10)) = 42 := by
  refine ⟨?_, by decide, by norm_num [roundHalfAwayFromZero]⟩
  intro c hc t ht f hf e he hne
  rw [roundHalfAwayFromZero_exact_product, computePriorityRankFloat_eq_fast]
  exact_mod_cast floatFast_agrees_off_boundary c hc t ht f hf e he hne

/-- C1 witness: the amended theorem applied at `(5, 9, 5, 3)`. -/
theorem priorityRank_single_round_off_boundary_check :
    (computePriorityRankFloat 5 9 5 3 : ℤ)
      = roundHalfAwayFromZero
          ((0.57 * ((5 : ℕ) : ℚ) + 0.43 * ((9 : ℕ) : ℚ))
            * (0.6 * ((5 : ℕ) : ℚ) + 0.4 * ((3 : ℕ) : ℚ))) :=
  priorityRank_single_round_off_boundary.1 5 (by decide) 9 (by decide)
    5 (by decide) 3 (by decide) (by decide)

/-- C5: for all four ratings integers in `[1,10]`, the returned
`priorityRank` lies between 1 and 100. -/
theorem priorityRank_bounds (c t f e : ℤ)
    (hc1 : 1 ≤ c) (hc2 : c ≤ 10) (ht1 : 1 ≤ t) (ht2 : t ≤ 10)
    (hf1 : 1 ≤ f) (hf2 : f ≤ 10) (he1 : 1 ≤ e) (he2 : e ≤ 10) :
    1 ≤ (computeRank ⟨(c : ℚ), (t : ℚ), (f : ℚ), (e : ℚ)⟩).priorityRank ∧
      (computeRank ⟨(c : ℚ), (t : ℚ), (f : ℚ), (e : ℚ)⟩).priorityRank ≤ 100 := by
  have hc : (1 : ℚ) ≤ (c : ℚ) := by exact_mod_cast hc1
  have ht : (1 : ℚ) ≤ (t : ℚ) := by exact_mod_cast ht1
  have hf : (1 : ℚ) ≤ (f : ℚ) := by exact_mod_cast hf1
  have he : (1 : ℚ) ≤ (e : ℚ) := by exact_mod_cast he1
  have hc' : (c : ℚ) ≤ 10 := by exact_mod_cast hc2
  have ht' : (t : ℚ) ≤ 10 := by exact_mod_cast ht2
  have hf' : (f : ℚ) ≤ 10 := by exact_mod_cast hf2
  have he' : (e : ℚ) ≤ 10 := by exact_mod_cast he2
  have ha1 : (1 : ℚ) ≤ 0.57 * (c : ℚ) + 0.43 * (t : ℚ) := by nlinarith
  have ha2 : 0.57 * (c : ℚ) + 0.43 * (t : ℚ) ≤ 10 := by nlinarith
  have hb1 : (1 : ℚ) ≤ 0.6 * (f : ℚ) + 0.4 * (e : ℚ) := by nlinarith
  have hb2 : 0.6 * (f : ℚ) + 0.4 * (e : ℚ) ≤ 10 := by nlinarith
  have hp1 : (1 : ℚ)
      ≤ (0.57 * (c : ℚ) + 0.43 * (t : ℚ)) * (0.6 * (f : ℚ) + 0.4 * (e : ℚ)) := by
    nlinarith
  have hp2 : (0.57 * (c : ℚ) + 0.43 * (t : ℚ)) * (0.6 * (f : ℚ) + 0.4 * (e : ℚ))
      ≤ 100 := by nlinarith
  constructor
  · show (1 : ℤ) ≤ jsRound _
    unfold jsRound
    exact Int.le_floor.mpr (by push_cast; linarith)
  · show jsRound _ ≤ 100
    unfold jsRound
    calc ⌊(0.57 * (c : ℚ) + 0.43 * (t : ℚ)) * (0.6 * (f : ℚ) + 0.4 * (e : ℚ)) + 1/2⌋
        ≤ ⌊(100 : ℚ) + 1/2⌋ := Int.floor_le_floor (by linarith)
      _ = 100 := by norm_num

/-- C5 witness: the theorem applied at `(1, 1, 1, 1)`. -/
theorem priorityRank_bounds_check :
    1 ≤ (computeRank ⟨((1 : ℤ) : ℚ), ((1 : ℤ) : ℚ), ((1 : ℤ) : ℚ), ((1 : ℤ) : ℚ)⟩).priorityRank ∧
      (computeRank ⟨((1 : ℤ) : ℚ), ((1 : ℤ) : ℚ), ((1 : ℤ) : ℚ), ((1 : ℤ) : ℚ)⟩).priorityRank ≤ 100 :=
  priorityRank_bounds 1 1 1 1 (by decide) (by decide) (by decide) (by decide)
    (by decide) (by decide) (by decide) (by decide)

/-- C3: for every valid `RatingInput` the escalation flag is exactly
`teamEnergy ≥ 9 ∧ ease ≤ 3`, and replacing `customerImpact` and
`frequency` by anything at all (with `teamEnergy` and `ease` fixed)
leaves the flag unchanged. -/
theorem escalation_rule (r : RatingInput) (h : ValidRatingInput r) :
    ((computeRank r).escalationFlag = true ↔ (9 ≤ r.teamEnergy ∧ r.ease ≤ 3)) ∧
      ∀ ci fr : ℚ,
        (computeRank ⟨ci, r.teamEnergy, fr, r.ease⟩).escalationFlag
          = (computeRank r).escalationFlag := by
  constructor
  · simp [computeRank, shouldLeaderUnblock, Bool.and_eq_true, decide_eq_true_iff,
      ge_iff_le]
  · intro ci fr
    simp [computeRank, shouldLeaderUnblock]

/-- C3 witness: the theorem applied at `(5, 9, 5, 3)` shows the flag is
set there. -/
theorem escalation_rule_check :
    (computeRank ⟨5, 9, 5, 3⟩).escalationFlag = true :=
  (escalation_rule ⟨5, 9, 5, 3⟩
      ⟨⟨⟨5, by norm_num⟩, by norm_num, by norm_num⟩,
       ⟨⟨9, by norm_num⟩, by norm_num, by norm_num⟩,
       ⟨⟨5, by norm_num⟩, by norm_num, by norm_num⟩,
       ⟨⟨3, by norm_num⟩, by norm_num, by norm_num⟩⟩).1.mpr
    ⟨by norm_num, by norm_num⟩

/-- C6 counterexample: at `(5, 9, 5, 3)` the stored tier label is
`"🙂 When time allows"`, not the claimed `"When time allows"`. -/
theorem boundary_case_label_counterexample :
    (computeRank ⟨5, 9, 5, 3⟩).actionTier = "🙂 When time allows" ∧
      ("🙂 When time allows" : String) ≠ "When time allows" := by
  constructor
  · norm_num [computeRank, computePriorityRank, jsRound, tierForPR]
  · decide

/-- C6 amended: at `customerImpact=5, teamEnergy=9, frequency=5, ease=3`
the engine returns `priorityRank = 28`, the tier label
`"🙂 When time allows"` (the code's label for the `≥ 25` band, carrying
its emoji prefix), and `escalationFlag = true` — a low-priority item can
still trigger escalation. -/
theorem boundary_case_5_9_5_3 :
    computeRank ⟨5, 9, 5, 3⟩
      = { priorityRank := 28, actionTier := "🙂 When time allows",
          escalationFlag := true } := by
  norm_num [computeRank, computePriorityRank, jsRound, tierForPR, shouldLeaderUnblock]

/-- Helper: the urgency level of a tier label follows the threshold
chain of `tierForPR`. -/
lemma tierLevel_tierForPR (q : ℤ) :
    tierLevel (tierForPR q)
      = if q ≥ 70 then 4 else if q ≥ 50 then 3 else if q ≥ 36 then 2
        else if q ≥ 25 then 1 else 0 := by
  unfold tierForPR
  split_ifs <;> rfl

/-- C2 counterexample: the stored label for `priorityRank = 70` is
`"🔥 Make it happen"`, which differs from the claimed `"Make it happen"`. -/
theorem tier_label_emoji_counterexample :
    tierForPR 70 = "🔥 Make it happen" ∧
      ("🔥 Make it happen" : String) ≠ "Make it happen" :=
  ⟨rfl, by decide⟩

/-- C2 amended: `actionTier` is the step function of `priorityRank` with
lower-inclusive thresholds evaluated highest-first — `"🔥 Make it happen"`
for `≥ 70`, `"🚀 Act on it now"` for `≥ 50`, `"🧭 Move it forward"` for
`≥ 36`, `"🙂 When time allows"` for `≥ 25`, `"⚪ Park for later"`
otherwise (the code's labels carry an emoji prefix); every integer (in
particular every integer in `[1,100]`) maps to exactly one of the five
pairwise-distinct labels, and the mapping is monotonic: a higher score
never yields a lower tier. -/
theorem tier_step_function (pr : ℤ) :
    (70 ≤ pr → tierForPR pr = "🔥 Make it happen") ∧
    (50 ≤ pr ∧ pr < 70 → tierForPR pr = "🚀 Act on it now") ∧
    (36 ≤ pr ∧ pr < 50 → tierForPR pr = "🧭 Move it forward") ∧
    (25 ≤ pr ∧ pr < 36 → tierForPR pr = "🙂 When time allows") ∧
    (pr < 25 → tierForPR pr = "⚪ Park for later") ∧
    tierForPR pr ∈ tierLabels ∧
    tierLabels.Nodup ∧
    ∀ pr2 : ℤ, pr ≤ pr2 → tierLevel (tierForPR pr) ≤ tierLevel (tierForPR pr2) := by
  refine ⟨?_, ?_, ?_, ?_, ?_, ?_, by decide, ?_⟩
  · intro h; unfold tierForPR; split_ifs <;> first | rfl | omega
  · intro h; unfold tierForPR; split_ifs <;> first | rfl | omega
  · intro h; unfold tierForPR; split_ifs <;> first | rfl | omega
  · intro h; unfold tierForPR; split_ifs <;> first | rfl | omega
  · intro h; unfold tierForPR; split_ifs <;> first | rfl | omega
  · unfold tierForPR; split_ifs <;> simp [tierLabels]
  · intro pr2 hle
    rw [tierLevel_tierForPR, tierLevel_tierForPR]
    split_ifs <;> omega

/-- C2 witness: the theorem applied at `pr = 70` (and `pr2 = 80`,
`pr = 24` for the other bands). -/
theorem tier_step_function_check :
    tierForPR 70 = "🔥 Make it happen" ∧
      tierForPR 24 = "⚪ Park for later" ∧
      tierForPR 70 ∈ tierLabels ∧
      tierLevel (tierForPR 70) ≤ tierLevel (tierForPR 80) :=
  ⟨(tier_step_function 70).1 (by decide),
   (tier_step_function 24).2.2.2.2.1 (by decide),
   (tier_step_function 70).2.2.2.2.2.1,
   (tier_step_function 70).2.2.2.2.2.2.2 80 (by decide)⟩

/-- C4: the claim says an out-of-range rating is rejected and never
clamped, but `safeInt` in the pg variant of src/index.js clamps `11` to
`10` (and stores the item), and the `/api/items/:id/ratings` handler
defaults a missing rating to `0`; only `num1to10` rejects as claimed. -/
theorem clamping_evidence :
    safeInt (some 11) = some 10 ∧
      num1to10 (some 11) = none ∧
      numberOr0 none = 0 := by
  refine ⟨?_, ?_, rfl⟩
  · norm_num [safeInt]
  · norm_num [num1to10]

/-- C7: the claim says every rating-validation failure names the
offending field, but the `POST /items/new` validation of
src/unnamed/part_000 answers with one fixed message whichever field is
bad — the responses for a bad `team_energy` and a bad `ease` are the
same string, which names no field.  The part_007 factors loop does name
the field. -/
theorem validation_message_evidence :
    validateNewItem000 (some 5) (some 11) (some 5) (some 5)
        = some "All four factors must be 1..10." ∧
      validateNewItem000 (some 5) (some 5) (some 5) (some 11)
        = some "All four factors must be 1..10." ∧
      validateFactors007 (some 5) (some 11) (some 5) (some 5)
        = some "Invalid team_energy: must be number 1..10" := by
  refine ⟨?_, ?_, ?_⟩
  · norm_num [validateNewItem000, num1to10]
  · norm_num [validateNewItem000, num1to10]
  · norm_num [validateFactors007, checkFactor007, Option.orElse]
    rfl

/-- Helper: collapsing outside a whitespace run yields the empty list
only for the empty list. -/
lemma collapseAux_false_eq_nil_iff (l : List Char) :
    collapseAux false l = [] ↔ l = [] := by
  cases l with
  | nil => simp [collapseAux]
  | cons c rest =>
    by_cases hw : c.isWhitespace = true
    · simp [collapseAux, hw]
    · simp [collapseAux, hw]

/-- Helper: `tidy` erases a string exactly when `trim` already does. -/
lemma tidy_eq_empty_iff (s : String) : tidy s = "" ↔ jsTrim s = "" := by
  unfold tidy jsCollapseWS
  constructor
  · intro h
    have hd : collapseAux false (jsTrim s).data = [] := by
      have := congrArg String.data h
      simpa using this
    have : (jsTrim s).data = [] := (collapseAux_false_eq_nil_iff _).mp hd
    cases hs : jsTrim s with
    | mk d => rw [hs] at this; simp at this; rw [this]
  · intro h
    rw [h]
    rfl

/-- C8 counterexample: with the human title `"a  b"` present, `makeTitle`
stores `"a b"` (whitespace collapsed), not the verbatim title `"a  b"`;
`deriveTitle` does the same. -/
theorem title_not_verbatim_counterexample :
    makeTitle "a  b" "" = "a b" ∧
      deriveTitle "a  b" "" = "a b" ∧
      ("a b" : String) ≠ "a  b" := by
  refine ⟨?_, ?_, by decide⟩
  · rfl
  · rfl

/-- C8 amended: the derived title is the whitespace-collapsed and trimmed
human title when that is nonblank (capped at 80 characters by `makeTitle`,
uncapped by `deriveTitle`), otherwise the collapsed and trimmed prefix of
the free text capped at 80 characters, otherwise the literal
`"(untitled)"` when both are blank. -/
theorem title_characterization (title transcript : String) :
    (tidy title ≠ "" →
        makeTitle title transcript = jsSlice80 (tidy title) ∧
        deriveTitle title transcript = tidy title) ∧
    (tidy title = "" → tidy transcript ≠ "" →
        makeTitle title transcript = jsSlice80 (tidy transcript) ∧
        deriveTitle title transcript = jsSlice80 (tidy transcript)) ∧
    (tidy title = "" → tidy transcript = "" →
        makeTitle title transcript = "(untitled)" ∧
        deriveTitle title transcript = "(untitled)") := by
  refine ⟨?_, ?_, ?_⟩
  · intro h
    have ht : jsTrim title ≠ "" := fun he => h ((tidy_eq_empty_iff title).mpr he)
    constructor
    · unfold makeTitle
      rw [if_pos ht, if_neg ht]
      rfl
    · unfold deriveTitle
      rw [if_pos h]
  · intro h htr
    have ht0 : jsTrim title = "" := (tidy_eq_empty_iff title).mp h
    have htr' : jsTrim transcript ≠ "" :=
      fun he => htr ((tidy_eq_empty_iff transcript).mpr he)
    constructor
    · unfold makeTitle
      rw [if_neg (not_not_intro ht0), if_neg htr']
      rfl
    · unfold deriveTitle
      rw [if_neg (not_not_intro h), if_pos htr]
  · intro h htr
    have ht0 : jsTrim title = "" := (tidy_eq_empty_iff title).mp h
    have htr0 : jsTrim transcript = "" := (tidy_eq_empty_iff transcript).mp htr
    constructor
    · unfold makeTitle
      rw [if_neg (not_not_intro ht0), if_pos htr0]
    · unfold deriveTitle
      rw [if_neg (not_not_intro h), if_neg (not_not_intro htr)]

/-- C8 witness: the theorem applied at title `" My  title "` and at the
blank/blank pair. -/
theorem title_characterization_check :
    (makeTitle " My  title " "free text" = jsSlice80 (tidy " My  title ") ∧
      deriveTitle " My  title " "free text" = tidy " My  title ") ∧
    (makeTitle "" "" = "(untitled)" ∧ deriveTitle "" "" = "(untitled)") :=
  ⟨(title_characterization " My  title " "free text").1 (by decide),
   (title_characterization "" "").2.2 (by decide) (by decide)⟩

/-- C9 counterexample: an item at stage 7 accepts a request for stage 3
and ends lower than it started — index.js stores `3 + 1 = 4`, part_004
stores `3`; neither handler reads the previous stage. -/
theorem stage_back_transition_counterexample :
    stageEndpoint 7 3 = some 4 ∧ (4 : ℤ) < 7 ∧
      stageEndpoint004 7 3 = some 3 ∧ (3 : ℤ) < 7 := by
  refine ⟨?_, by decide, ?_, by decide⟩
  · decide
  · decide

/-- C9 amended: every accepted stage-update request leaves the stage in
`[1,9]` (in particular it never exceeds 9), but the stored stage is a
function of the requested stage alone — the requested stage plus one,
capped at 9, in index.js, and the requested stage itself in part_004 —
independent of the item's previous stage, so back-transitions are
possible. -/
theorem stage_update_behavior (prev prev2 req s s4 : ℤ) :
    (stageEndpoint prev req = some s → 1 ≤ s ∧ s ≤ 9) ∧
      stageEndpoint prev req = stageEndpoint prev2 req ∧
      (stageEndpoint004 prev req = some s4 → 1 ≤ s4 ∧ s4 ≤ 9) ∧
      stageEndpoint004 prev req = stageEndpoint004 prev2 req := by
  refine ⟨?_, rfl, ?_, rfl⟩
  · intro hs
    unfold stageEndpoint fieldMap at hs
    split_ifs at hs <;> simp_all <;> try omega
  · intro hs
    unfold stageEndpoint004 at hs
    split_ifs at hs <;> simp_all <;> try omega

/-- C9 witness: the theorem applied at previous stage 7 (and 2) with
requested stage 3. -/
theorem stage_update_behavior_check :
    ((1 : ℤ) ≤ 4 ∧ (4 : ℤ) ≤ 9) ∧
      stageEndpoint 7 3 = stageEndpoint 2 3 ∧
      ((1 : ℤ) ≤ 3 ∧ (3 : ℤ) ≤ 9) ∧
      stageEndpoint004 7 3 = stageEndpoint004 2 3 :=
  ⟨(stage_update_behavior 7 2 3 4 3).1 (by decide),
   (stage_update_behavior 7 2 3 4 3).2.1,
   (stage_update_behavior 7 2 3 4 3).2.2.1 (by decide),
   (stage_update_behavior 7 2 3 4 3).2.2.2⟩

/-- Helper: the reduction of `itemsNew007` on four present ratings. -/
lemma itemsNew007_some (c t f e : ℚ) :
    itemsNew007 (some c) (some t) (some f) (some e)
      = if 1 ≤ c ∧ c ≤ 10 ∧ 1 ≤ t ∧ t ≤ 10 ∧ 1 ≤ f ∧ f ≤ 10 ∧ 1 ≤ e ∧ e ≤ 10
        then ⟨some c, some t, some f, some e,
              some (computePriorityRank c t f e),
              some (tierForPR (computePriorityRank c t f e)),
              some (shouldLeaderUnblock t e)⟩
        else ⟨some c, some t, some f, some e, none, none, none⟩ := rfl

/-- C10: `POST /items/new` (part_007) always inserts the item with the
coerced ratings stored as given; when the four ratings are not all finite
numbers in `[1,10]` the rank, tier and flag columns are all left null,
and when they are, all three are computed from the ratings and stored. -/
theorem items_new_guard (ci te fr ea : Option ℚ) :
    (itemsNew007 ci te fr ea).customer_impact = ci ∧
    (itemsNew007 ci te fr ea).team_energy = te ∧
    (itemsNew007 ci te fr ea).frequency = fr ∧
    (itemsNew007 ci te fr ea).ease = ea ∧
    (¬(in1to10 ci = true ∧ in1to10 te = true ∧ in1to10 fr = true ∧
          in1to10 ea = true) →
      (itemsNew007 ci te fr ea).priority_rank = none ∧
      (itemsNew007 ci te fr ea).action_tier = none ∧
      (itemsNew007 ci te fr ea).leader_to_unblock = none) ∧
    ((in1to10 ci = true ∧ in1to10 te = true ∧ in1to10 fr = true ∧
          in1to10 ea = true) →
      ∃ c t f e : ℚ, ci = some c ∧ te = some t ∧ fr = some f ∧ ea = some e ∧
        (itemsNew007 ci te fr ea).priority_rank
          = some (computePriorityRank c t f e) ∧
        (itemsNew007 ci te fr ea).action_tier
          = some (tierForPR (computePriorityRank c t f e)) ∧
        (itemsNew007 ci te fr ea).leader_to_unblock
          = some (shouldLeaderUnblock t e)) := by
  rcases ci with _ | c <;> rcases te with _ | t <;> rcases fr with _ | f <;>
    rcases ea with _ | e <;> try (simp [itemsNew007, in1to10]; done)
  have hiff : (in1to10 (some c) = true ∧ in1to10 (some t) = true ∧
        in1to10 (some f) = true ∧ in1to10 (some e) = true) ↔
      (1 ≤ c ∧ c ≤ 10 ∧ 1 ≤ t ∧ t ≤ 10 ∧ 1 ≤ f ∧ f ≤ 10 ∧ 1 ≤ e ∧ e ≤ 10) := by
    simp only [in1to10, Bool.and_eq_true, decide_eq_true_eq]
    tauto
  by_cases hall : 1 ≤ c ∧ c ≤ 10 ∧ 1 ≤ t ∧ t ≤ 10 ∧ 1 ≤ f ∧ f ≤ 10 ∧ 1 ≤ e ∧ e ≤ 10
  · rw [itemsNew007_some, if_pos hall]
    exact ⟨rfl, rfl, rfl, rfl, fun hno => absurd (hiff.mpr hall) hno,
      fun _ => ⟨c, t, f, e, rfl, rfl, rfl, rfl, rfl, rfl, rfl⟩⟩
  · rw [itemsNew007_some, if_neg hall]
    exact ⟨rfl, rfl, rfl, rfl, fun _ => ⟨rfl, rfl, rfl⟩,
      fun hyes => absurd (hiff.mp hyes) hall⟩

/-- C10 witness: the theorem applied at a missing `customer_impact`
(item created, all three derived columns null) — and the in-range case
is exercised through the guard hypothesis at `(5, 9, 5, 3)`. -/
theorem items_new_guard_check :
    ((itemsNew007 none (some 9) (some 5) (some 3)).priority_rank = none ∧
      (itemsNew007 none (some 9) (some 5) (some 3)).action_tier = none ∧
      (itemsNew007 none (some 9) (some 5) (some 3)).leader_to_unblock = none) ∧
    (itemsNew007 (some 11) (some 9) (some 5) (some 3)).priority_rank = none :=
  ⟨(items_new_guard none (some 9) (some 5) (some 3)).2.2.2.2.1
      (by simp [in1to10]),
   ((items_new_guard (some 11) (some 9) (some 5) (some 3)).2.2.2.2.1
      (by norm_num [in1to10])).1⟩
